import Mathlib

/-!
Shallow embedding of the two HTTP route handlers of the repository
(src/app/api/deploy/route.ts and src/app/api/fork-and-deploy/route.ts).

Remote services are modelled by a record of scripted responses (one field per
endpoint the code can hit); each handler is a pure function from its
configuration, its parsed request body and that record to a result value
together with the ordered list of remote calls it performed.
-/

namespace CfDeploy

/-- JavaScript Response.ok: status in the range 200..299. -/
def fetchOk (status : Nat) : Bool := 200 ≤ status && status ≤ 299

/-- ASCII whitespace recognised by the model of String.prototype.trim. -/
def isJsWhitespace (c : Char) : Bool :=
  c = ' ' || c = '\t' || c = '\n' || c = '\r' || c = '\x0b' || c = '\x0c'

/-- Model of String.prototype.trim on character lists: drop whitespace from
both ends. -/
def trimChars (l : List Char) : List Char :=
  ((l.dropWhile isJsWhitespace).reverse.dropWhile isJsWhitespace).reverse

/-- Model of String.prototype.trim. -/
def jsTrim (s : String) : String := String.mk (trimChars s.data)

/-- Model of String.prototype.toLowerCase on one character (ASCII range, the
only range the handlers rely on): code points 65..90 are the uppercase
letters A..Z, shifted by 32 to a..z. -/
def jsToLowerChar (c : Char) : Char :=
  if 65 ≤ c.toNat ∧ c.toNat ≤ 90 then Char.ofNat (c.toNat + 32) else c

/-- Model of String.prototype.toLowerCase. -/
def jsToLower (s : String) : String := String.mk (s.data.map jsToLowerChar)

/-- Characters the regex class [a-z0-9-] accepts: code points 97..122 are
a..z and 48..57 are 0..9. -/
def isSlugChar (c : Char) : Bool :=
  (97 ≤ c.toNat && c.toNat ≤ 122) || (48 ≤ c.toNat && c.toNat ≤ 57) || c = '-'

/-- One step of the regex replacement replace(/[^a-z0-9-]/g, "-"). -/
def slugChar (c : Char) : Char := if isSlugChar c then c else '-'

/-- Model of secret.replace(/[^a-z0-9-]/g, "-"). -/
def replaceDisallowed (s : String) : String := String.mk (s.data.map slugChar)

/-- The secret sanitization of the fork-and-deploy handler:
secret.trim().toLowerCase().replace(/[^a-z0-9-]/g, "-"). -/
def cleanSecret (secret : String) : String :=
  replaceDisallowed (jsToLower (jsTrim secret))

/-- The backquote character, code point 96. -/
def backquoteChar : Char := Char.ofNat 96

/-- The single quote character, code point 39. -/
def quoteChar : Char := Char.ofNat 39

/-- GetSubstitution semantics of a JavaScript string replacement for a
pattern with no capture groups: in the replacement template, dollar-dollar
yields a dollar, dollar-ampersand the matched text, dollar-backquote the
part of the subject before the match, dollar-quote the part after it; any
other dollar sequence (including dollar-digit, as the patterns of the
handler capture nothing) is literal text. -/
def expandRepl (matched before after : List Char) : List Char → List Char
  | [] => []
  | c :: rest =>
    if c = '$' then
      match rest with
      | [] => [c]
      | d :: rest2 =>
        if d = '$' then '$' :: expandRepl matched before after rest2
        else if d = '&' then matched ++ expandRepl matched before after rest2
        else if d = backquoteChar then before ++ expandRepl matched before after rest2
        else if d = quoteChar then after ++ expandRepl matched before after rest2
        else c :: d :: expandRepl matched before after rest2
    else
      c :: expandRepl matched before after rest

/-- Fuel-driven worker for global literal replacement (the semantics of
JavaScript String.prototype.replace with a /g literal regex): scan left to
right, replace each non-overlapping leftmost occurrence, expanding the
replacement template against the full subject at the match position. The
invariant of the caller is that s is full with the first pos characters
dropped. -/
def replaceAllF (full pat repl : List Char) : Nat → Nat → List Char → List Char
  | 0, _, s => s
  | Nat.succ f, pos, s =>
    match s with
    | [] => []
    | c :: rest =>
      if pat ≠ [] ∧ pat.isPrefixOf (c :: rest) then
        expandRepl pat (full.take pos) (full.drop (pos + pat.length)) repl
          ++ replaceAllF full pat repl f (pos + pat.length) ((c :: rest).drop pat.length)
      else
        c :: replaceAllF full pat repl f (pos + 1) rest

/-- Global literal replacement on character lists. -/
def replaceAllChars (pat repl s : List Char) : List Char :=
  replaceAllF s pat repl s.length 0 s

/-- Model of s.replace(/pat/g, repl) for a literal pattern pat and a string
replacement repl, with JavaScript GetSubstitution applied to repl. -/
def replaceAllS (s pat repl : String) : String :=
  String.mk (replaceAllChars pat.data repl.data s.data)

/-- Decidable substring containment, model of String.prototype.includes. -/
def containsSub (s sub : String) : Bool := decide (sub.data <:+: s.data)

/-- Model of String.prototype.startsWith. -/
def startsWithS (s pre : String) : Bool := pre.data.isPrefixOf s.data

/-! ### Deploy-trigger route (src/app/api/deploy/route.ts) -/

/-- Module-level configuration of the deploy route, read from the process
environment; an absent variable is the empty string (falsy). -/
structure DeployConfig where
  owner : String
  repo : String
  workflowFileEnv : String
  pat : String
  deriving DecidableEq, Repr

/-- WORKFLOW_FILE with its || "deploy.yml" default applied. -/
def DeployConfig.workflowFile (cfg : DeployConfig) : String :=
  if cfg.workflowFileEnv = "" then "deploy.yml" else cfg.workflowFileEnv

/-- Parsed JSON body of a deploy request; env is the optional env field. -/
structure DeployBody where
  env : Option String
  deriving DecidableEq, Repr

/-- Remote calls the deploy route can issue. -/
inductive DeployCall where
  | dispatch (env : String)
  deriving DecidableEq, Repr

/-- Scripted remote responses for the deploy route. -/
structure DeployWorld where
  dispatchStatus : Nat
  dispatchBody : String
  deriving DecidableEq, Repr

/-- Results the deploy route can return, following the error taxonomy
InvalidInput / ConfigurationMissing / UpstreamError of the specification. -/
inductive DeployResult where
  | invalidInput (msg : String) (status : Nat)
  | configurationMissing (msg : String) (status : Nat)
  | upstreamError (msg : String) (status : Nat)
  | success (message actionsUrl env : String)
  deriving DecidableEq, Repr

/-- The env value actually used by the deploy handler: body.env || "preview"
(undefined and the empty string are falsy). -/
def deployEnvOf (b : DeployBody) : String :=
  match b.env with
  | none => "preview"
  | some e => if e = "" then "preview" else e

/-- POST of src/app/api/deploy/route.ts. The body argument is none when the
request body is absent or not parseable as JSON, in which case the handler
substitutes the empty object. -/
def deployPOST (cfg : DeployConfig) (body : Option DeployBody) (w : DeployWorld) :
    DeployResult × List DeployCall :=
  let b := body.getD ⟨none⟩
  let env := deployEnvOf b
  if cfg.owner = "" ∨ cfg.repo = "" ∨ cfg.pat = "" then
    (.configurationMissing "Missing GITHUB_* env vars on server" 500, [])
  else
    let calls := [DeployCall.dispatch env]
    if w.dispatchStatus ≠ 204 then
      (.upstreamError
        ("GitHub API error (" ++ toString w.dispatchStatus ++ "): " ++ w.dispatchBody) 500,
       calls)
    else
      (.success "Deploy triggered"
        ("https://github.com/" ++ cfg.owner ++ "/" ++ cfg.repo ++ "/actions/workflows/"
          ++ cfg.workflowFile)
        env,
       calls)

/-! ### Fork-and-deploy route (src/app/api/fork-and-deploy/route.ts) -/

/-- Module-level configuration of the fork-and-deploy route; an absent
environment variable is the empty string (falsy). -/
structure ForkConfig where
  githubToken : String
  originalOwner : String
  originalRepo : String
  cloudflareToken : String
  cloudflareAccountId : String
  deriving DecidableEq, Repr

/-- Parsed JSON body of a fork-and-deploy request; secret is none when the
field is absent. -/
structure ForkRequest where
  secret : Option String
  deriving DecidableEq, Repr

/-- One entry of the recursive tree listing returned by the source-control
API. -/
structure TreeItem where
  type : String
  path : String
  mode : String
  sha : String
  deriving DecidableEq, Repr

/-- Remote calls the fork-and-deploy route can issue, in the order the
handler can make them; payloads are recorded where a claim inspects them. -/
inductive Call where
  | fork
  | createOrg
  | createUser
  | getSourceTree
  | getTargetRef
  | createTree (tree : List TreeItem)
  | createCommit (treeSha parentSha : String)
  | updateRef (sha : String)
  | enableActions
  | getWrangler
  | putWrangler (content sha : String)
  | getPublicKey
  | putSecret (name : String)
  | checkWorkflow
  | dispatchWorkflow (env : String)
  deriving DecidableEq, Repr

/-- Scripted remote responses for the fork-and-deploy route, one field group
per endpoint the handler can hit. -/
structure World where
  forkStatus : Nat
  forkOwnerLogin : String
  forkMessage : Option String
  createOrgStatus : Nat
  createOrgOwnerLogin : String
  createUserStatus : Nat
  createUserOwnerLogin : String
  createUserErrorText : String
  sourceTreeStatus : Nat
  sourceTree : List TreeItem
  targetRefStatus : Nat
  targetRefSha : String
  createTreeStatus : Nat
  createTreeErrorText : String
  newTreeSha : String
  createCommitStatus : Nat
  createCommitErrorText : String
  newCommitSha : String
  updateRefStatus : Nat
  updateRefErrorText : String
  enableActionsStatus : Nat
  getWranglerStatus : Nat
  wranglerContent : String
  wranglerSha : String
  putWranglerStatus : Nat
  putWranglerErrorText : String
  publicKeyStatus : Nat
  putSecretStatus : String → Nat
  checkWorkflowStatus : Nat
  dispatchStatus : Nat
  dispatchErrorText : String

/-- Results the fork-and-deploy route can return. -/
inductive ForkResult where
  | invalidInput (msg : String) (status : Nat)
  | configurationMissing (msg : String) (status : Nat)
  | upstreamError (msg : String) (status : Nat)
  | success (repoName repoUrl previewUrl message : String)
  deriving DecidableEq, Repr

/-- Result of one of the helper steps (updateWranglerConfig,
setupGitHubSecrets, triggerDeployment): the NextResponse it built, reduced
to whether response.ok holds plus the error payload. -/
inductive StepResult where
  | ok
  | err (msg : String) (status : Nat)
  deriving DecidableEq, Repr

/-- The errorResponse.message?.includes("forking is disabled") test. -/
def forkingDisabledMessage (m : Option String) : Bool :=
  match m with
  | none => false
  | some msg => containsSub msg "forking is disabled"

/-- Abstraction of JSON.stringify(errorResponse) for the parsed fork error
body, which the model restricts to its message field. -/
def forkErrorJson (m : Option String) : String :=
  match m with
  | none => "\x7b\x7d"
  | some msg => "\x7b\"message\":\"" ++ msg ++ "\"\x7d"

/-- copyRepositoryContent: read the recursive source tree, read the target
head, create a filtered tree, a commit on top of the target head, and move
the target branch to it. A thrown error is the Except.error branch. -/
def copyRepositoryContent (w : World) : Except String Unit × List Call :=
  if ¬ fetchOk w.sourceTreeStatus then
    (.error "Failed to get source repository tree", [.getSourceTree])
  else if ¬ fetchOk w.targetRefStatus then
    (.error "Failed to get target repository main branch", [.getSourceTree, .getTargetRef])
  else
    let filteredTree :=
      (w.sourceTree.filter (fun item =>
        item.type = "blob" &&
        !(containsSub item.path ".git/") &&
        !(startsWithS item.path "node_modules/") &&
        item.path ≠ "README.md")).map
        (fun item => { path := item.path, mode := item.mode, type := item.type, sha := item.sha })
    let calls1 : List Call := [.getSourceTree, .getTargetRef, .createTree filteredTree]
    if ¬ fetchOk w.createTreeStatus then
      (.error ("Failed to create tree: " ++ w.createTreeErrorText), calls1)
    else
      let calls2 := calls1 ++ [.createCommit w.newTreeSha w.targetRefSha]
      if ¬ fetchOk w.createCommitStatus then
        (.error ("Failed to create commit: " ++ w.createCommitErrorText), calls2)
      else
        let calls3 := calls2 ++ [.updateRef w.newCommitSha]
        if ¬ fetchOk w.updateRefStatus then
          (.error ("Failed to update main branch: " ++ w.updateRefErrorText), calls3)
        else
          (.ok (), calls3)

/-- Step 1 of the handler (the try block of lines 46-130): attempt the fork;
on 403 with a "forking is disabled" message fall back to create-in-org then
create-in-personal-account, and after a successful creation copy the source
content. On success, returns the new owner login and the wasForked flag; a
thrown error is the Except.error branch, already wrapped by the catch of the
step ("Repository creation failed: ..."). -/
def acquireRepository (w : World) : Except String (String × Bool) × List Call :=
  if fetchOk w.forkStatus then
    (.ok (w.forkOwnerLogin, true), [.fork])
  else if w.forkStatus = 403 ∧ forkingDisabledMessage w.forkMessage then
    if fetchOk w.createOrgStatus then
      match copyRepositoryContent w with
      | (.ok _, copyCalls) =>
        (.ok (w.createOrgOwnerLogin, false), [.fork, .createOrg] ++ copyCalls)
      | (.error e, copyCalls) =>
        (.error ("Repository creation failed: " ++ e), [.fork, .createOrg] ++ copyCalls)
    else if fetchOk w.createUserStatus then
      match copyRepositoryContent w with
      | (.ok _, copyCalls) =>
        (.ok (w.createUserOwnerLogin, false), [.fork, .createOrg, .createUser] ++ copyCalls)
      | (.error e, copyCalls) =>
        (.error ("Repository creation failed: " ++ e), [.fork, .createOrg, .createUser] ++ copyCalls)
    else
      (.error ("Repository creation failed: Failed to create repository: "
        ++ w.createUserErrorText), [.fork, .createOrg, .createUser])
  else
    (.error ("Repository creation failed: Failed to fork repository: "
      ++ forkErrorJson w.forkMessage), [.fork])

/-- The five sequential global literal substitutions of updateWranglerConfig
applied to the fetched wrangler.toml content. -/
def updatedWranglerContent (currentContent secret cleanSecret : String) : String :=
  replaceAllS
    (replaceAllS
      (replaceAllS
        (replaceAllS
          (replaceAllS currentContent
            "name = \"cf-demo-worker\"" ("name = \"cf-demo-worker-" ++ cleanSecret ++ "\""))
          "name = \"cf-demo-worker-preview\""
          ("name = \"cf-demo-worker-" ++ cleanSecret ++ "-preview\""))
        "MY_SECRET = \"dev-secret\"" ("MY_SECRET = \"" ++ secret ++ "\""))
      "MY_SECRET = \"preview-secret\"" ("MY_SECRET = \"" ++ secret ++ "\""))
    "MY_SECRET = \"production-secret\"" ("MY_SECRET = \"" ++ secret ++ "\"")

/-- updateWranglerConfig: fetch wrangler.toml, rewrite it with the five
substitutions and write it back, passing the fetched file sha as the
optimistic-concurrency precondition. -/
def updateWranglerConfig (secret cleanSecret : String) (w : World) :
    StepResult × List Call :=
  if ¬ fetchOk w.getWranglerStatus then
    (.err "Failed to update wrangler config: Failed to get wrangler.toml" 500, [.getWrangler])
  else
    let updatedContent := updatedWranglerContent w.wranglerContent secret cleanSecret
    let calls1 : List Call := [.getWrangler, .putWrangler updatedContent w.wranglerSha]
    if ¬ fetchOk w.putWranglerStatus then
      (.err ("Failed to update wrangler config: Failed to update wrangler.toml: "
        ++ w.putWranglerErrorText) 500, calls1)
    else
      (.ok, calls1)

/-- setupGitHubSecrets: fetch the repository public key, then upload each of
the two secrets; a failed upload is only logged (console.warn) and the step
still returns ok. -/
def setupGitHubSecrets (w : World) : StepResult × List Call :=
  if ¬ fetchOk w.publicKeyStatus then
    (.err "Failed to setup GitHub secrets: Failed to get repository public key" 500,
     [.getPublicKey])
  else
    (.ok, [.getPublicKey, .putSecret "CLOUDFLARE_API_TOKEN", .putSecret "CLOUDFLARE_ACCOUNT_ID"])

/-- triggerDeployment: check that .github/workflows/deploy.yml exists, then
dispatch it with env preview; a failed existence check aborts before any
dispatch call. -/
def triggerDeployment (w : World) : StepResult × List Call :=
  if ¬ fetchOk w.checkWorkflowStatus then
    (.err ("Failed to trigger deployment: Workflow file does not exist in repository. Status: "
      ++ toString w.checkWorkflowStatus) 500, [.checkWorkflow])
  else
    let calls1 : List Call := [.checkWorkflow, .dispatchWorkflow "preview"]
    if ¬ fetchOk w.dispatchStatus then
      (.err ("Failed to trigger deployment: Failed to trigger deployment: "
        ++ w.dispatchErrorText) 500, calls1)
    else
      (.ok, calls1)

/-- Steps 2 to 6 of the handler, run once the repository has been acquired:
optionally enable Actions (forked case, non-fatal), rewrite wrangler.toml,
set up the secrets, trigger the deployment, compose the final payload.
Returns the result and the remote calls made after the acquisition step. -/
def afterAcquire (cfg : ForkConfig) (secret cs newRepoName newOwner : String)
    (wasForked : Bool) (w : World) : ForkResult × List Call :=
  let calls2 : List Call := if wasForked then [Call.enableActions] else []
  match updateWranglerConfig secret cs w with
  | (.err m st, uc) => (.upstreamError m st, calls2 ++ uc)
  | (.ok, uc) =>
    let calls3 := calls2 ++ uc
    match setupGitHubSecrets w with
    | (.err m st, sc) => (.upstreamError m st, calls3 ++ sc)
    | (.ok, sc) =>
      let calls4 := calls3 ++ sc
      match triggerDeployment w with
      | (.err m st, dc) => (.upstreamError m st, calls4 ++ dc)
      | (.ok, dc) =>
        let calls5 := calls4 ++ dc
        (.success newRepoName
          ("https://github.com/" ++ newOwner ++ "/" ++ newRepoName)
          ("https://" ++ cfg.originalRepo ++ "-" ++ cs ++ "-preview." ++ newOwner
            ++ ".workers.dev")
          (if wasForked then "Repository forked and deployment triggered successfully!"
           else "Repository created and deployment triggered successfully!"),
         calls5)

/-- POST of src/app/api/fork-and-deploy/route.ts. -/
def forkDeployPOST (cfg : ForkConfig) (req : ForkRequest) (w : World) :
    ForkResult × List Call :=
  match req.secret with
  | none => (.invalidInput "Secret is required" 400, [])
  | some secret =>
    if secret = "" ∨ jsTrim secret = "" then
      (.invalidInput "Secret is required" 400, [])
    else if cfg.githubToken = "" ∨ cfg.originalOwner = "" ∨ cfg.originalRepo = "" then
      (.configurationMissing "Missing GitHub configuration" 500, [])
    else if cfg.cloudflareToken = "" ∨ cfg.cloudflareAccountId = "" then
      (.configurationMissing "Missing Cloudflare configuration" 500, [])
    else
      let cs := cleanSecret secret
      let newRepoName := cfg.originalRepo ++ "-" ++ cs
      match acquireRepository w with
      | (.error e, calls1) => (.upstreamError e 500, calls1)
      | (.ok (newOwner, wasForked), calls1) =>
        let pr := afterAcquire cfg secret cs newRepoName newOwner wasForked w
        (pr.1, calls1 ++ pr.2)

/-! ### Concrete sample inputs used by witnesses and counterexamples -/

/-- Fully populated configuration for the fork-and-deploy route. -/
def sampleCfg : ForkConfig := ⟨"tok", "own", "repo", "cftok", "acct"⟩

/-- World in which the fork succeeds, the wrangler rewrite and public-key
fetch succeed, both secret uploads fail, and the workflow-existence check
returns 404. -/
def forkOkWorld : World := {
  forkStatus := 202, forkOwnerLogin := "own",
  forkMessage := none,
  createOrgStatus := 422, createOrgOwnerLogin := "own",
  createUserStatus := 422, createUserOwnerLogin := "me", createUserErrorText := "user boom",
  sourceTreeStatus := 200, sourceTree := [],
  targetRefStatus := 200, targetRefSha := "base",
  createTreeStatus := 201, createTreeErrorText := "", newTreeSha := "t1",
  createCommitStatus := 201, createCommitErrorText := "", newCommitSha := "c1",
  updateRefStatus := 200, updateRefErrorText := "",
  enableActionsStatus := 200,
  getWranglerStatus := 200, wranglerContent := "compat", wranglerSha := "sha0",
  putWranglerStatus := 200, putWranglerErrorText := "",
  publicKeyStatus := 200, putSecretStatus := fun _ => 404,
  checkWorkflowStatus := 404, dispatchStatus := 204, dispatchErrorText := "" }

/-- World in which the fork answers 403 with a forking-is-disabled message,
creation in the organization fails, creation in the personal account
succeeds, and every later step succeeds. -/
def fallbackWorld : World := {
  forkStatus := 403, forkOwnerLogin := "own",
  forkMessage := some "forking is disabled for this repository",
  createOrgStatus := 422, createOrgOwnerLogin := "own",
  createUserStatus := 201, createUserOwnerLogin := "me", createUserErrorText := "user boom",
  sourceTreeStatus := 200,
  sourceTree := [⟨"blob", "a.ts", "100644", "s1"⟩, ⟨"blob", "README.md", "100644", "s2"⟩,
                 ⟨"tree", "dir", "040000", "s3"⟩, ⟨"blob", "node_modules/x", "100644", "s4"⟩],
  targetRefStatus := 200, targetRefSha := "base",
  createTreeStatus := 201, createTreeErrorText := "", newTreeSha := "t1",
  createCommitStatus := 201, createCommitErrorText := "", newCommitSha := "c1",
  updateRefStatus := 200, updateRefErrorText := "",
  enableActionsStatus := 200,
  getWranglerStatus := 200, wranglerContent := "name = \"cf-demo-worker\"", wranglerSha := "sha0",
  putWranglerStatus := 200, putWranglerErrorText := "",
  publicKeyStatus := 200, putSecretStatus := fun _ => 201,
  checkWorkflowStatus := 200, dispatchStatus := 204, dispatchErrorText := "" }

/-- World like fallbackWorld but in which both creation fallbacks fail. -/
def bothFailWorld : World :=
  { fallbackWorld with createUserStatus := 403 }

/-! ### Theorems -/

/-- C2: a fork-and-deploy request whose secret field is absent, empty, or
whitespace-only after trimming returns InvalidInput (HTTP 400) and performs
no remote call. -/
theorem claim2_empty_secret_invalid_input (cfg : ForkConfig) (req : ForkRequest) (w : World)
    (h : req.secret = none ∨ ∃ s, req.secret = some s ∧ jsTrim s = "") :
    forkDeployPOST cfg req w = (.invalidInput "Secret is required" 400, []) := by
  rcases h with h | ⟨s, hs, ht⟩
  · simp [forkDeployPOST, h]
  · simp [forkDeployPOST, hs, ht]

/-- Witness for C2 at the whitespace-only secret "   ". -/
theorem claim2_empty_secret_invalid_input_witness :
    forkDeployPOST sampleCfg ⟨some "   "⟩ forkOkWorld =
      (.invalidInput "Secret is required" 400, []) :=
  claim2_empty_secret_invalid_input sampleCfg ⟨some "   "⟩ forkOkWorld
    (Or.inr ⟨"   ", rfl, by decide⟩)

/-- C4: with the configuration present, the deploy route makes exactly one
dispatch call; remote status 204 yields the success payload with message,
actionsUrl and env, and any other remote status yields an UpstreamError
whose message carries the remote status code and body verbatim. -/
theorem claim4_deploy_dispatch (cfg : DeployConfig) (body : Option DeployBody) (w : DeployWorld)
    (h1 : cfg.owner ≠ "") (h2 : cfg.repo ≠ "") (h3 : cfg.pat ≠ "") :
    (deployPOST cfg body w).2 = [DeployCall.dispatch (deployEnvOf (body.getD ⟨none⟩))] ∧
    (w.dispatchStatus = 204 →
      (deployPOST cfg body w).1 =
        .success "Deploy triggered"
          ("https://github.com/" ++ cfg.owner ++ "/" ++ cfg.repo ++ "/actions/workflows/"
            ++ cfg.workflowFile)
          (deployEnvOf (body.getD ⟨none⟩))) ∧
    (w.dispatchStatus ≠ 204 →
      (deployPOST cfg body w).1 =
        .upstreamError
          ("GitHub API error (" ++ toString w.dispatchStatus ++ "): " ++ w.dispatchBody) 500) := by
  by_cases hd : w.dispatchStatus = 204 <;>
    simp [deployPOST, h1, h2, h3, hd]

/-- Witness for C4 with env "production" and an accepting remote. -/
theorem claim4_deploy_dispatch_witness :
    (deployPOST ⟨"o", "r", "", "p"⟩ (some ⟨some "production"⟩) ⟨204, ""⟩).2 =
      [DeployCall.dispatch "production"] ∧
    (deployPOST ⟨"o", "r", "", "p"⟩ (some ⟨some "production"⟩) ⟨204, ""⟩).1 =
      .success "Deploy triggered" "https://github.com/o/r/actions/workflows/deploy.yml"
        "production" := by
  have h := claim4_deploy_dispatch ⟨"o", "r", "", "p"⟩ (some ⟨some "production"⟩) ⟨204, ""⟩
    (by decide) (by decide) (by decide)
  exact ⟨h.1.trans (by decide), (h.2.1 rfl).trans (by decide)⟩

/-- C6 counterexample: the empty string is outside the enumerated set yet is
not forwarded literally; the handler dispatches the default "preview". -/
theorem claim6_counterexample_empty_env :
    ("" ∉ (["preview", "production"] : List String)) ∧
    (deployPOST ⟨"o", "r", "", "p"⟩ (some ⟨some ""⟩) ⟨204, ""⟩).2 =
      [DeployCall.dispatch "preview"] ∧
    DeployCall.dispatch "" ∉ (deployPOST ⟨"o", "r", "", "p"⟩ (some ⟨some ""⟩) ⟨204, ""⟩).2 := by
  decide

/-- C6 amended: every non-empty environment value, in particular every
non-empty value outside the enumerated set, is forwarded unchanged in the
dispatch call inputs; the empty string falls back to the default. -/
theorem claim6_env_forwarding_amended (cfg : DeployConfig) (w : DeployWorld) (e : String)
    (he : e ≠ "") (h1 : cfg.owner ≠ "") (h2 : cfg.repo ≠ "") (h3 : cfg.pat ≠ "") :
    (deployPOST cfg (some ⟨some e⟩) w).2 = [DeployCall.dispatch e] := by
  by_cases hd : w.dispatchStatus = 204 <;>
    simp [deployPOST, deployEnvOf, he, h1, h2, h3, hd]

/-- Witness for amended C6 at the out-of-set value "staging". -/
theorem claim6_env_forwarding_amended_witness :
    (deployPOST ⟨"o", "r", "", "p"⟩ (some ⟨some "staging"⟩) ⟨204, ""⟩).2 =
      [DeployCall.dispatch "staging"] := by
  have h := claim6_env_forwarding_amended ⟨"o", "r", "", "p"⟩ ⟨204, ""⟩ "staging"
    (by decide) (by decide) (by decide) (by decide)
  exact h.trans (by decide)

/-- C10: a deploy request with an absent or unparseable body behaves exactly
as the empty object, the result is never InvalidInput, and with the
configuration present the dispatched env is the default "preview". -/
theorem claim10_malformed_body_default (cfg : DeployConfig) (w : DeployWorld) :
    deployPOST cfg none w = deployPOST cfg (some ⟨none⟩) w ∧
    (∀ m st, (deployPOST cfg none w).1 ≠ DeployResult.invalidInput m st) ∧
    (cfg.owner ≠ "" → cfg.repo ≠ "" → cfg.pat ≠ "" →
      (deployPOST cfg none w).2 = [DeployCall.dispatch "preview"]) := by
  refine ⟨rfl, ?_, ?_⟩
  · intro m st
    by_cases h1 : cfg.owner = "" ∨ cfg.repo = "" ∨ cfg.pat = "" <;>
      by_cases hd : w.dispatchStatus = 204 <;>
        simp [deployPOST, h1, hd]
  · intro h1 h2 h3
    by_cases hd : w.dispatchStatus = 204 <;>
      simp [deployPOST, deployEnvOf, h1, h2, h3, hd]

/-- Witness for C10 at a concrete configuration and remote. -/
theorem claim10_malformed_body_default_witness :
    deployPOST ⟨"o", "r", "", "p"⟩ none ⟨204, ""⟩ =
      deployPOST ⟨"o", "r", "", "p"⟩ (some ⟨none⟩) ⟨204, ""⟩ ∧
    (deployPOST ⟨"o", "r", "", "p"⟩ none ⟨204, ""⟩).2 = [DeployCall.dispatch "preview"] := by
  have h := claim10_malformed_body_default ⟨"o", "r", "", "p"⟩ ⟨204, ""⟩
  exact ⟨h.1, h.2.2 (by decide) (by decide) (by decide)⟩

/-- C7: when the workflow-existence check fails, the deployment step returns
an UpstreamError, the whole flow surfaces it, and no workflow-dispatch call
appears in the trace. Stated on the forked happy path up to that step. -/
theorem claim7_workflow_check_aborts (cfg : ForkConfig) (req : ForkRequest) (w : World)
    (s : String)
    (hs : req.secret = some s) (hns : s ≠ "") (ht : jsTrim s ≠ "")
    (hc1 : cfg.githubToken ≠ "") (hc2 : cfg.originalOwner ≠ "") (hc3 : cfg.originalRepo ≠ "")
    (hc4 : cfg.cloudflareToken ≠ "") (hc5 : cfg.cloudflareAccountId ≠ "")
    (hf : fetchOk w.forkStatus = true)
    (hw1 : fetchOk w.getWranglerStatus = true) (hw2 : fetchOk w.putWranglerStatus = true)
    (hk : fetchOk w.publicKeyStatus = true)
    (hcw : fetchOk w.checkWorkflowStatus = false) :
    triggerDeployment w =
      (.err ("Failed to trigger deployment: Workflow file does not exist in repository. Status: "
        ++ toString w.checkWorkflowStatus) 500, [.checkWorkflow]) ∧
    (forkDeployPOST cfg req w).1 =
      .upstreamError
        ("Failed to trigger deployment: Workflow file does not exist in repository. Status: "
          ++ toString w.checkWorkflowStatus) 500 ∧
    ∀ e, Call.dispatchWorkflow e ∉ (forkDeployPOST cfg req w).2 := by
  simp [forkDeployPOST, afterAcquire, acquireRepository, updateWranglerConfig,
    setupGitHubSecrets, triggerDeployment, hs, hns, ht, hc1, hc2, hc3, hc4, hc5,
    hf, hw1, hw2, hk, hcw]

/-- Witness for C7: workflow-existence check answers 404. -/
theorem claim7_workflow_check_aborts_witness :
    (forkDeployPOST sampleCfg ⟨some "sec"⟩ forkOkWorld).1 =
      .upstreamError
        "Failed to trigger deployment: Workflow file does not exist in repository. Status: 404"
        500 ∧
    Call.dispatchWorkflow "preview" ∉ (forkDeployPOST sampleCfg ⟨some "sec"⟩ forkOkWorld).2 := by
  have h := claim7_workflow_check_aborts sampleCfg ⟨some "sec"⟩ forkOkWorld "sec"
    rfl (by decide) (by decide) (by decide) (by decide) (by decide) (by decide) (by decide)
    (by decide) (by decide) (by decide) (by decide) (by decide)
  exact ⟨h.2.1.trans (by decide), h.2.2 "preview"⟩

/-- C8: once the public key is fetched, the secret-upload step uploads both
secrets and returns success whatever the per-secret upload statuses are, and
the orchestrator goes on to the deployment-trigger step. Stated on the
forked path with the wrangler rewrite succeeding. -/
theorem claim8_secret_upload_nonfatal (cfg : ForkConfig) (req : ForkRequest) (w : World)
    (s : String)
    (hs : req.secret = some s) (hns : s ≠ "") (ht : jsTrim s ≠ "")
    (hc1 : cfg.githubToken ≠ "") (hc2 : cfg.originalOwner ≠ "") (hc3 : cfg.originalRepo ≠ "")
    (hc4 : cfg.cloudflareToken ≠ "") (hc5 : cfg.cloudflareAccountId ≠ "")
    (hf : fetchOk w.forkStatus = true)
    (hw1 : fetchOk w.getWranglerStatus = true) (hw2 : fetchOk w.putWranglerStatus = true)
    (hk : fetchOk w.publicKeyStatus = true) :
    setupGitHubSecrets w =
      (.ok, [.getPublicKey, .putSecret "CLOUDFLARE_API_TOKEN",
        .putSecret "CLOUDFLARE_ACCOUNT_ID"]) ∧
    Call.checkWorkflow ∈ (forkDeployPOST cfg req w).2 := by
  by_cases hcw : fetchOk w.checkWorkflowStatus = true <;>
    by_cases hd : fetchOk w.dispatchStatus = true <;>
      simp [forkDeployPOST, afterAcquire, acquireRepository, updateWranglerConfig,
        setupGitHubSecrets, triggerDeployment, hs, hns, ht, hc1, hc2, hc3, hc4, hc5,
        hf, hw1, hw2, hk, hcw, hd]

/-- Witness for C8: both secret uploads answer 404 and the trace still
reaches the workflow-existence check. -/
theorem claim8_secret_upload_nonfatal_witness :
    setupGitHubSecrets forkOkWorld =
      (.ok, [.getPublicKey, .putSecret "CLOUDFLARE_API_TOKEN",
        .putSecret "CLOUDFLARE_ACCOUNT_ID"]) ∧
    Call.checkWorkflow ∈ (forkDeployPOST sampleCfg ⟨some "sec"⟩ forkOkWorld).2 := by
  have h := claim8_secret_upload_nonfatal sampleCfg ⟨some "sec"⟩ forkOkWorld "sec"
    rfl (by decide) (by decide) (by decide) (by decide) (by decide) (by decide) (by decide)
    (by decide) (by decide) (by decide) (by decide)
  exact h

/-- Helper: no branch after repository acquisition builds a
ConfigurationMissing result. -/
theorem afterAcquire_not_configMissing (cfg : ForkConfig) (secret cs n o : String)
    (wf : Bool) (w : World) (m : String) (st : Nat) :
    (afterAcquire cfg secret cs n o wf w).1 ≠ ForkResult.configurationMissing m st := by
  by_cases hw1 : fetchOk w.getWranglerStatus = true <;>
  by_cases hw2 : fetchOk w.putWranglerStatus = true <;>
  by_cases hk : fetchOk w.publicKeyStatus = true <;>
  by_cases hcw : fetchOk w.checkWorkflowStatus = true <;>
  by_cases hd : fetchOk w.dispatchStatus = true <;>
  cases wf <;>
  simp [afterAcquire, updateWranglerConfig, setupGitHubSecrets, triggerDeployment,
    hw1, hw2, hk, hcw, hd]

/-- C5 counterexample: each of the FIVE configuration values is individually
required, so no choice of four of them suffices; with any four present and
the fifth absent the handler still returns ConfigurationMissing. -/
theorem claim5_counterexample_config_count :
    (forkDeployPOST ⟨"", "own", "repo", "cftok", "acct"⟩ ⟨some "sec"⟩ forkOkWorld).1 =
      .configurationMissing "Missing GitHub configuration" 500 ∧
    (forkDeployPOST ⟨"tok", "", "repo", "cftok", "acct"⟩ ⟨some "sec"⟩ forkOkWorld).1 =
      .configurationMissing "Missing GitHub configuration" 500 ∧
    (forkDeployPOST ⟨"tok", "own", "", "cftok", "acct"⟩ ⟨some "sec"⟩ forkOkWorld).1 =
      .configurationMissing "Missing GitHub configuration" 500 ∧
    (forkDeployPOST ⟨"tok", "own", "repo", "", "acct"⟩ ⟨some "sec"⟩ forkOkWorld).1 =
      .configurationMissing "Missing Cloudflare configuration" 500 ∧
    (forkDeployPOST ⟨"tok", "own", "repo", "cftok", ""⟩ ⟨some "sec"⟩ forkOkWorld).1 =
      .configurationMissing "Missing Cloudflare configuration" 500 := by
  decide

/-- C5 amended: with a valid secret, the absence of any of the FIVE
remote-service configuration values yields ConfigurationMissing (HTTP 500)
with no remote call made, and with all five present no ConfigurationMissing
is ever returned. -/
theorem claim5_config_missing_amended (cfg : ForkConfig) (req : ForkRequest) (w : World)
    (s : String) (hs : req.secret = some s) (hns : s ≠ "") (ht : jsTrim s ≠ "") :
    ((cfg.githubToken = "" ∨ cfg.originalOwner = "" ∨ cfg.originalRepo = "") →
      forkDeployPOST cfg req w =
        (.configurationMissing "Missing GitHub configuration" 500, [])) ∧
    (cfg.githubToken ≠ "" → cfg.originalOwner ≠ "" → cfg.originalRepo ≠ "" →
      (cfg.cloudflareToken = "" ∨ cfg.cloudflareAccountId = "") →
      forkDeployPOST cfg req w =
        (.configurationMissing "Missing Cloudflare configuration" 500, [])) ∧
    (cfg.githubToken ≠ "" → cfg.originalOwner ≠ "" → cfg.originalRepo ≠ "" →
      cfg.cloudflareToken ≠ "" → cfg.cloudflareAccountId ≠ "" →
      ∀ m st, (forkDeployPOST cfg req w).1 ≠ .configurationMissing m st) := by
  refine ⟨?_, ?_, ?_⟩
  · intro h
    simp [forkDeployPOST, hs, hns, ht, h]
  · intro h1 h2 h3 h
    simp [forkDeployPOST, hs, hns, ht, h1, h2, h3, h]
  · intro h1 h2 h3 h4 h5 m st
    rcases hA : acquireRepository w with ⟨res, calls⟩
    rcases res with e | ⟨o, wf⟩ <;>
      simp [forkDeployPOST, hs, hns, ht, h1, h2, h3, h4, h5, hA,
        afterAcquire_not_configMissing]

/-- Witness for amended C5: the GitHub token missing and everything else in
place yields ConfigurationMissing before any remote call. -/
theorem claim5_config_missing_amended_witness :
    forkDeployPOST ⟨"", "own", "repo", "cftok", "acct"⟩ ⟨some "sec"⟩ fallbackWorld =
      (.configurationMissing "Missing GitHub configuration" 500, []) := by
  have h := claim5_config_missing_amended ⟨"", "own", "repo", "cftok", "acct"⟩
    ⟨some "sec"⟩ fallbackWorld "sec" rfl (by decide) (by decide)
  exact h.1 (Or.inl rfl)

/-- Helper: the replacement character map always produces a slug character. -/
theorem slugChar_isSlugChar (c : Char) : isSlugChar (slugChar c) = true := by
  by_cases h : isSlugChar c = true
  · simp [slugChar, h]
  · simp only [slugChar, h, if_false, Bool.false_eq_true, if_neg]
    decide

/-- Helper: slug characters are left unchanged by the replacement map. -/
theorem slugChar_id (c : Char) (h : isSlugChar c = true) : slugChar c = c := by
  simp [slugChar, h]

/-- Helper: slug characters are not whitespace. -/
theorem isSlugChar_not_ws (c : Char) (h : isSlugChar c = true) : isJsWhitespace c = false := by
  cases hw : isJsWhitespace c
  · rfl
  · exfalso
    have hc : c = ' ' ∨ c = '\t' ∨ c = '\n' ∨ c = '\r' ∨ c = '\x0b' ∨ c = '\x0c' := by
      simpa [isJsWhitespace, or_assoc] using hw
    rcases hc with h1 | h1 | h1 | h1 | h1 | h1 <;> subst h1 <;> exact absurd h (by decide)

/-- Helper: slug characters are outside the uppercase ASCII range, so the
lowercasing map leaves them unchanged. -/
theorem jsToLowerChar_slug (c : Char) (h : isSlugChar c = true) : jsToLowerChar c = c := by
  unfold jsToLowerChar
  rw [if_neg]
  rintro ⟨h1, h2⟩
  have hc : (97 ≤ c.toNat ∧ c.toNat ≤ 122) ∨ (48 ≤ c.toNat ∧ c.toNat ≤ 57) ∨ c = '-' := by
    simpa [isSlugChar, or_assoc] using h
  rcases hc with ⟨a, b⟩ | ⟨a, b⟩ | a
  · omega
  · omega
  · subst a
    exact absurd h1 (by decide)

/-- Helper: dropWhile is the identity when no element satisfies the
predicate. -/
theorem dropWhile_eq_self (p : Char → Bool) (l : List Char)
    (h : ∀ c ∈ l, p c = false) : l.dropWhile p = l := by
  cases l with
  | nil => rfl
  | cons a t => simp [List.dropWhile_cons, h a (List.mem_cons_self a t)]

/-- Helper: trimming is the identity on whitespace-free character lists. -/
theorem trimChars_eq_self (l : List Char) (h : ∀ c ∈ l, isJsWhitespace c = false) :
    trimChars l = l := by
  unfold trimChars
  rw [dropWhile_eq_self _ _ h,
    dropWhile_eq_self _ _ (fun c hc => h c (List.mem_reverse.mp hc)),
    List.reverse_reverse]

/-- Helper: map is the identity when the function fixes every element. -/
theorem map_self (f : Char → Char) (l : List Char) (h : ∀ c ∈ l, f c = c) :
    l.map f = l := by
  induction l with
  | nil => rfl
  | cons a t ih =>
    simp only [List.map_cons, h a (List.mem_cons_self a t)]
    rw [ih (fun c hc => h c (List.mem_cons_of_mem a hc))]

/-- Helper: every character of a sanitized secret is a slug character. -/
theorem cleanSecret_chars (s : String) : ∀ c ∈ (cleanSecret s).data, isSlugChar c = true := by
  intro c hc
  rcases List.mem_map.mp hc with ⟨a, _, rfl⟩
  exact slugChar_isSlugChar a

/-- C3: the secret sanitization is total (defined on every string), its
output uses only lowercase letters, digits and hyphens, it is idempotent,
and it maps the specification scenario "MyCo 2024!" to "myco-2024-". -/
theorem claim3_cleanSecret_sanitization (s : String) :
    (∀ c ∈ (cleanSecret s).data, isSlugChar c = true) ∧
    cleanSecret (cleanSecret s) = cleanSecret s ∧
    cleanSecret "MyCo 2024!" = "myco-2024-" := by
  refine ⟨cleanSecret_chars s, ?_, by decide⟩
  have hall : ∀ c ∈ (cleanSecret s).data, isSlugChar c = true := cleanSecret_chars s
  show replaceDisallowed (jsToLower (jsTrim (cleanSecret s))) = cleanSecret s
  have htrim : jsTrim (cleanSecret s) = cleanSecret s := by
    show String.mk (trimChars (cleanSecret s).data) = cleanSecret s
    rw [trimChars_eq_self _ (fun c hc => isSlugChar_not_ws c (hall c hc))]
  rw [htrim]
  have hlow : jsToLower (cleanSecret s) = cleanSecret s := by
    show String.mk ((cleanSecret s).data.map jsToLowerChar) = cleanSecret s
    rw [map_self _ _ (fun c hc => jsToLowerChar_slug c (hall c hc))]
  rw [hlow]
  show String.mk ((cleanSecret s).data.map slugChar) = cleanSecret s
  rw [map_self _ _ (fun c hc => slugChar_id c (hall c hc))]

/-- Witness for C3 at the scenario input. -/
theorem claim3_cleanSecret_sanitization_witness :
    isSlugChar 'm' = true ∧
    cleanSecret (cleanSecret "MyCo 2024!") = cleanSecret "MyCo 2024!" := by
  have h := claim3_cleanSecret_sanitization "MyCo 2024!"
  exact ⟨h.1 'm' (by decide), h.2.1⟩

/-- Helper: soundness of the boolean prefix test. -/
theorem prefixOf_sound (l1 l2 : List Char) (h : l1.isPrefixOf l2 = true) : l1 <+: l2 := by
  simpa using h

/-- Helper: global replacement of a pattern that has no occurrence is the
identity (at any fuel and position). -/
theorem replaceAllF_eq_self (full pat repl : List Char) (f : Nat) :
    ∀ (pos : Nat) (s : List Char), ¬ (pat <:+: s) → replaceAllF full pat repl f pos s = s := by
  induction f with
  | zero => intro pos s _; rfl
  | succ f ih =>
    intro pos s h
    cases s with
    | nil => rfl
    | cons c rest =>
      have hp : ¬ (pat ≠ [] ∧ pat.isPrefixOf (c :: rest)) := by
        rintro ⟨_, hpre⟩
        exact h ((prefixOf_sound pat (c :: rest) hpre).isInfix)
      have hr : ¬ (pat <:+: rest) := fun hi =>
        h (hi.trans (List.suffix_cons c rest).isInfix)
      simp only [replaceAllF, if_neg hp]
      exact congrArg (c :: ·) (ih (pos + 1) rest hr)

/-- Helper: String-level global replacement of a pattern the string does not
contain is the identity. -/
theorem replaceAllS_eq_self (s pat repl : String) (h : containsSub s pat = false) :
    replaceAllS s pat repl = s := by
  have hn : ¬ (pat.data <:+: s.data) := by simpa [containsSub] using h
  unfold replaceAllS replaceAllChars
  rw [replaceAllF_eq_self _ _ _ _ _ _ hn]

/-- C9: with the configuration file fetched, the rewrite step writes back
exactly the result of the five fixed literal global substitutions (with the
JavaScript GetSubstitution expansion of dollar sequences in the replacement,
so a secret such as a dollar-ampersand pattern re-inserts the matched text),
using the fetched file content hash as the optimistic-concurrency
precondition, and a content containing none of the five literals is written
back unchanged. -/
theorem claim9_wrangler_rewrite (secret cs : String) (w : World)
    (hg : fetchOk w.getWranglerStatus = true) :
    (updateWranglerConfig secret cs w).2 =
      [Call.getWrangler,
       Call.putWrangler (updatedWranglerContent w.wranglerContent secret cs) w.wranglerSha] ∧
    (fetchOk w.putWranglerStatus = true → (updateWranglerConfig secret cs w).1 = .ok) ∧
    (containsSub w.wranglerContent "name = \"cf-demo-worker\"" = false →
     containsSub w.wranglerContent "name = \"cf-demo-worker-preview\"" = false →
     containsSub w.wranglerContent "MY_SECRET = \"dev-secret\"" = false →
     containsSub w.wranglerContent "MY_SECRET = \"preview-secret\"" = false →
     containsSub w.wranglerContent "MY_SECRET = \"production-secret\"" = false →
      updatedWranglerContent w.wranglerContent secret cs = w.wranglerContent) ∧
    updatedWranglerContent "MY_SECRET = \"dev-secret\"" "a$&b" cs =
      "MY_SECRET = \"aMY_SECRET = \"dev-secret\"b\"" := by
  refine ⟨?_, ?_, ?_, ?_⟩
  · by_cases hp : fetchOk w.putWranglerStatus = true <;> simp [updateWranglerConfig, hg, hp]
  · intro hp
    simp [updateWranglerConfig, hg, hp]
  · intro h1 h2 h3 h4 h5
    unfold updatedWranglerContent
    rw [replaceAllS_eq_self _ _ _ h1, replaceAllS_eq_self _ _ _ h2,
      replaceAllS_eq_self _ _ _ h3, replaceAllS_eq_self _ _ _ h4,
      replaceAllS_eq_self _ _ _ h5]
  · unfold updatedWranglerContent
    rw [replaceAllS_eq_self "MY_SECRET = \"dev-secret\"" "name = \"cf-demo-worker\"" _
        (by decide),
      replaceAllS_eq_self "MY_SECRET = \"dev-secret\"" "name = \"cf-demo-worker-preview\"" _
        (by decide)]
    decide

/-- Witness for C9: a concrete rewrite of the worker name, the identity on a
content free of all five literals, and the dollar-ampersand expansion of a
secret used as replacement. -/
theorem claim9_wrangler_rewrite_witness :
    (updateWranglerConfig "S!" "s-" fallbackWorld).2 =
      [Call.getWrangler, Call.putWrangler "name = \"cf-demo-worker-s-\"" "sha0"] ∧
    updatedWranglerContent "compat" "S!" "s-" = "compat" ∧
    updatedWranglerContent "MY_SECRET = \"dev-secret\"" "a$&b" "s-" =
      "MY_SECRET = \"aMY_SECRET = \"dev-secret\"b\"" := by
  have h1 := claim9_wrangler_rewrite "S!" "s-" fallbackWorld (by decide)
  have h2 := claim9_wrangler_rewrite "S!" "s-" forkOkWorld (by decide)
  exact ⟨h1.1.trans (by decide),
    h2.2.2.1 (by decide) (by decide) (by decide) (by decide) (by decide),
    h2.2.2.2⟩

/-- Helper: the content-copy sub-flow always begins by reading the source
tree. -/
theorem copy_trace_head (w : World) :
    ∃ tl, (copyRepositoryContent w).2 = Call.getSourceTree :: tl := by
  unfold copyRepositoryContent
  by_cases h1 : fetchOk w.sourceTreeStatus = true <;>
  by_cases h2 : fetchOk w.targetRefStatus = true <;>
  by_cases h3 : fetchOk w.createTreeStatus = true <;>
  by_cases h4 : fetchOk w.createCommitStatus = true <;>
  by_cases h5 : fetchOk w.updateRefStatus = true <;>
  simp [h1, h2, h3, h4, h5]

/-- Helper: the post-acquisition steps never read the source tree. -/
theorem afterAcquire_no_copyCalls (cfg : ForkConfig) (secret cs n o : String)
    (wf : Bool) (w : World) :
    Call.getSourceTree ∉ (afterAcquire cfg secret cs n o wf w).2 := by
  by_cases hw1 : fetchOk w.getWranglerStatus = true <;>
  by_cases hw2 : fetchOk w.putWranglerStatus = true <;>
  by_cases hk : fetchOk w.publicKeyStatus = true <;>
  by_cases hcw : fetchOk w.checkWorkflowStatus = true <;>
  by_cases hd : fetchOk w.dispatchStatus = true <;>
  cases wf <;>
  simp [afterAcquire, updateWranglerConfig, setupGitHubSecrets, triggerDeployment,
    hw1, hw2, hk, hcw, hd]

/-- C1: a fork failure that is 403 with a message containing "forking is
disabled" triggers the create-in-organization fallback, then the
create-in-personal-account fallback, and the source content is copied only
after a successful creation; any other fork failure terminates the flow with
an UpstreamError after the single fork call, and a successful fork never
copies content. -/
theorem claim1_fork_fallback (cfg : ForkConfig) (req : ForkRequest) (w : World) (s : String)
    (hs : req.secret = some s) (hns : s ≠ "") (ht : jsTrim s ≠ "")
    (hc1 : cfg.githubToken ≠ "") (hc2 : cfg.originalOwner ≠ "") (hc3 : cfg.originalRepo ≠ "")
    (hc4 : cfg.cloudflareToken ≠ "") (hc5 : cfg.cloudflareAccountId ≠ "") :
    (fetchOk w.forkStatus = false →
      ¬ (w.forkStatus = 403 ∧ forkingDisabledMessage w.forkMessage = true) →
      forkDeployPOST cfg req w =
        (.upstreamError ("Repository creation failed: Failed to fork repository: "
          ++ forkErrorJson w.forkMessage) 500, [.fork])) ∧
    (w.forkStatus = 403 → forkingDisabledMessage w.forkMessage = true →
      fetchOk w.createOrgStatus = true →
      ∃ rest, (forkDeployPOST cfg req w).2 =
        [.fork, .createOrg, .getSourceTree] ++ rest) ∧
    (w.forkStatus = 403 → forkingDisabledMessage w.forkMessage = true →
      fetchOk w.createOrgStatus = false → fetchOk w.createUserStatus = true →
      ∃ rest, (forkDeployPOST cfg req w).2 =
        [.fork, .createOrg, .createUser, .getSourceTree] ++ rest) ∧
    (w.forkStatus = 403 → forkingDisabledMessage w.forkMessage = true →
      fetchOk w.createOrgStatus = false → fetchOk w.createUserStatus = false →
      forkDeployPOST cfg req w =
        (.upstreamError ("Repository creation failed: Failed to create repository: "
          ++ w.createUserErrorText) 500, [.fork, .createOrg, .createUser])) ∧
    (fetchOk w.forkStatus = true →
      Call.getSourceTree ∉ (forkDeployPOST cfg req w).2) := by
  have hval : ¬ (s = "" ∨ jsTrim s = "") := by
    rintro (h | h)
    · exact hns h
    · exact ht h
  refine ⟨?_, ?_, ?_, ?_, ?_⟩
  · intro hf hnd
    simp [forkDeployPOST, acquireRepository, hs, hval, hc1, hc2, hc3, hc4, hc5, hf, hnd]
  · intro h403 hmsg horg
    have hf : fetchOk 403 = false := by decide
    rcases hC : copyRepositoryContent w with ⟨cres, ccalls⟩
    obtain ⟨tl, htl⟩ : ∃ tl, ccalls = Call.getSourceTree :: tl := by
      have h := copy_trace_head w
      rw [hC] at h
      exact h
    cases cres with
    | error e =>
      exact ⟨tl, by simp [forkDeployPOST, acquireRepository, hs, hval, hc1, hc2, hc3,
        hc4, hc5, hf, h403, hmsg, horg, hC, htl]⟩
    | ok u =>
      refine ⟨tl ++ (afterAcquire cfg s (cleanSecret s)
        (cfg.originalRepo ++ "-" ++ cleanSecret s) w.createOrgOwnerLogin false w).2, ?_⟩
      simp [forkDeployPOST, acquireRepository, hs, hval, hc1, hc2, hc3, hc4, hc5,
        hf, h403, hmsg, horg, hC, htl]
  · intro h403 hmsg horg huser
    have hf : fetchOk 403 = false := by decide
    rcases hC : copyRepositoryContent w with ⟨cres, ccalls⟩
    obtain ⟨tl, htl⟩ : ∃ tl, ccalls = Call.getSourceTree :: tl := by
      have h := copy_trace_head w
      rw [hC] at h
      exact h
    cases cres with
    | error e =>
      exact ⟨tl, by simp [forkDeployPOST, acquireRepository, hs, hval, hc1, hc2, hc3,
        hc4, hc5, hf, h403, hmsg, horg, huser, hC, htl]⟩
    | ok u =>
      refine ⟨tl ++ (afterAcquire cfg s (cleanSecret s)
        (cfg.originalRepo ++ "-" ++ cleanSecret s) w.createUserOwnerLogin false w).2, ?_⟩
      simp [forkDeployPOST, acquireRepository, hs, hval, hc1, hc2, hc3, hc4, hc5,
        hf, h403, hmsg, horg, huser, hC, htl]
  · intro h403 hmsg horg huser
    have hf : fetchOk 403 = false := by decide
    simp [forkDeployPOST, acquireRepository, hs, hval, hc1, hc2, hc3, hc4, hc5,
      hf, h403, hmsg, horg, huser]
  · intro hft
    simp [forkDeployPOST, acquireRepository, hs, hval, hc1, hc2, hc3, hc4, hc5, hft,
      afterAcquire_no_copyCalls]

/-- Witness for C1: forking disabled and both creation fallbacks failing
terminate the flow with an UpstreamError and no content copy. -/
theorem claim1_fork_fallback_witness :
    forkDeployPOST sampleCfg ⟨some "sec"⟩ bothFailWorld =
      (.upstreamError "Repository creation failed: Failed to create repository: user boom" 500,
       [.fork, .createOrg, .createUser]) := by
  have h := claim1_fork_fallback sampleCfg ⟨some "sec"⟩ bothFailWorld "sec"
    rfl (by decide) (by decide) (by decide) (by decide) (by decide) (by decide) (by decide)
  exact (h.2.2.2.1 (by decide) (by decide) (by decide) (by decide)).trans (by decide)

end CfDeploy
